import Mathlib

/-!
Verification of the wr-cli setup-step orchestration engine: a shallow
embedding of `wr_cli/setup/utils.py`, `wr_cli/setup/__init__.py`,
`wr_cli/setup/steps.py` and `wr_cli/setup/runner.py`, with theorems settling
the behavioural claims about the process executor, the step abstraction,
the concrete steps and the runner.
-/

namespace WrCli

/-- Python substring test `pat in s` on strings, as infix containment of the
character lists. -/
def strContains (s pat : String) : Bool :=
  decide (pat.toList <:+: s.toList)

/-- Python `s.strip()`: remove leading and trailing whitespace, computed
structurally on the character list. -/
def pyStrip (s : String) : String :=
  String.mk
    (((s.toList.dropWhile Char.isWhitespace).reverse.dropWhile
        Char.isWhitespace).reverse)

/-- Python `s.startswith(p)` as character-list prefix containment. -/
def pyStartsWith (s p : String) : Bool :=
  p.toList.isPrefixOf s.toList

/-- Outcome of attempting to launch a child process with an argument vector:
either the executable could not be located (Python raises
`FileNotFoundError`), or the process ran to completion with the given exit
code and the text it wrote to stdout/stderr. -/
inductive Launch where
  | notFound
  | ran (returncode : Int) (stdout stderr : String)
deriving DecidableEq

/-- Python uncaught-exception outcomes that the embedded `run_command` can
produce: calling `.strip()` on `None` (when `capture_output=False` the
`subprocess.run` result has `stdout = None`) raises `AttributeError`, which
`run_command` does not catch. -/
inductive PyError where
  | attrError
deriving DecidableEq

/-- Python `x.strip() if x else ""` applied to an optional string, as in the
`CalledProcessError` handler of `run_command`: `None` and the empty string
are falsy. -/
def pyTruthyStrip : Option String → String
  | none => ""
  | some s => if s.isEmpty then "" else pyStrip s

/-- Python `x.strip()` applied to an optional string, as on the success path
of `run_command`: on `None` this raises `AttributeError`. -/
def pyStripExn : Option String → Except PyError String
  | none => .error .attrError
  | some s => .ok (pyStrip s)

/-- Embedding of `run_command` from `wr_cli/setup/utils.py`. The behaviour of the child
process is supplied as a `Launch` oracle. In interactive mode the process
inherits the terminal, so the captured texts of the oracle are unused and a
`CalledProcessError(return_code, command)` raised by the `check` branch
carries `stdout = stderr = None`; in captured mode `subprocess.run` yields
`stdout`/`stderr` only when `capture_output` is set, and the exception
carries the same optional texts. -/
def run_command (command : List String) (capture_output : Bool)
    (check : Bool) (interactive : Bool) (launch : Launch) :
    Except PyError (Bool × String × String) :=
  if interactive then
    match launch with
    | .notFound => .ok (false, "", "Command not found: " ++ command.headD "")
    | .ran returncode _ _ =>
      if check && returncode ≠ 0 then
        .ok (false, pyTruthyStrip none, pyTruthyStrip none)
      else
        .ok (decide (returncode = 0), "", "")
  else
    match launch with
    | .notFound => .ok (false, "", "Command not found: " ++ command.headD "")
    | .ran returncode out err =>
      let capturedOut : Option String := if capture_output then some out else none
      let capturedErr : Option String := if capture_output then some err else none
      if check && returncode ≠ 0 then
        .ok (false, pyTruthyStrip capturedOut, pyTruthyStrip capturedErr)
      else do
        let o ← pyStripExn capturedOut
        let e ← pyStripExn capturedErr
        .ok (true, o, e)

/-- Outcome of `subprocess.run(cmd_str, shell=True, ...)` inside
`run_command_interactive`: the shell either ran and exited with a code, or
the launch raised an exception whose message is `msg`. -/
inductive ShellLaunch where
  | ran (returncode : Int)
  | raised (msg : String)
deriving DecidableEq

/-- Embedding of `run_command_interactive` from `wr_cli/setup/utils.py`: joins the
argument vector with spaces, runs it through the shell with the terminal
attached (so nothing is captured), and reports success as exit status zero;
any exception is converted to a failure whose stderr explains the cause. -/
def run_command_interactive (command : List String) (launch : ShellLaunch) :
    Bool × String × String :=
  let _cmd_str := String.intercalate " " command
  match launch with
  | .ran returncode => (decide (returncode = 0), "", "")
  | .raised msg => (false, "", "Error running command: " ++ msg)

/-- Behaviour of a concrete step's `execute()` body when it is invoked:
it either returns a boolean, or raises an exception whose `str(e)` is `msg`,
in which case `trace` is the text `traceback.format_exc()` would print. -/
inductive ExecOutcome where
  | ret (b : Bool)
  | raised (msg trace : String)
deriving DecidableEq

/-- A `SetupStep` (base class in `wr_cli/setup/__init__.py`) as seen by
`run`: its `name` and `description` properties, the value its
`is_completed()` probe reports against the current host, the behaviour of
its `execute()` body, and the shared verbosity flag. -/
structure Step where
  name : String
  description : String
  completed : Bool
  execOutcome : ExecOutcome
  verbose : Bool
deriving DecidableEq

/-- Result of one `SetupStep.run` call: the returned boolean, how many times
`execute()` was invoked, and the lines printed to the console. -/
structure RunResult where
  success : Bool
  execCalls : Nat
  output : List String
deriving DecidableEq

/-- Embedding of `SetupStep.run` from `wr_cli/setup/__init__.py`: skip (printing an
"already completed" line) when not forced and the completion probe holds;
otherwise print the starting line, invoke `execute()` once, and convert its
outcome — boolean or exception — into a boolean plus printed diagnostics.
No exception escapes: the `raised` case is absorbed here. -/
def Step.run (s : Step) (force : Bool) : RunResult :=
  if !force && s.completed then
    { success := true
      execCalls := 0
      output := ["[green]✓ " ++ s.name ++ "[/green] (already completed)"] }
  else
    let header := "[blue]→ " ++ s.name ++ "[/blue] - " ++ s.description
    match s.execOutcome with
    | .ret true =>
      { success := true
        execCalls := 1
        output := [header, "[green]✓ " ++ s.name ++ "[/green] completed"] }
    | .ret false =>
      { success := false
        execCalls := 1
        output := [header, "[red]✗ " ++ s.name ++ "[/red] failed"] }
    | .raised msg trace =>
      { success := false
        execCalls := 1
        output := [header, "[red]✗ " ++ s.name ++ "[/red] failed: " ++ msg] ++
          (if s.verbose then ["[red]" ++ trace ++ "[/red]"] else []) }

/-- A `SetupRunner` as relevant to `run_setup`: its resolved ordered step
list and the force flag. -/
structure Runner where
  steps : List Step
  force : Bool

/-- The loop body of `run_setup`: each step's `run` is invoked exactly once,
in list order, unconditionally (an earlier failure never skips a later
step); the result records, per step, its name and its `RunResult`. -/
def Runner.loop (force : Bool) : List Step → List (String × RunResult)
  | [] => []
  | s :: rest => (s.name, s.run force) :: Runner.loop force rest

/-- Overall result of `run_setup`: the returned boolean and the final
summary line printed (failure summary or the all-succeeded line). -/
structure SetupResult where
  success : Bool
  summary : String
deriving DecidableEq

/-- Embedding of `SetupRunner.run_setup` from `wr_cli/setup/runner.py`: run every step,
collect the names of the steps whose `run` returned false, and if any
failed print the `Failed steps: ...` line joined by `", "` and return false,
else print the all-succeeded line and return true. -/
def Runner.run_setup (r : Runner) : SetupResult :=
  let results := Runner.loop r.force r.steps
  let failed_steps := (results.filter fun p => !p.2.success).map Prod.fst
  if !failed_steps.isEmpty then
    { success := false
      summary := "\n[red]Failed steps: " ++
        String.intercalate ", " failed_steps ++ "[/red]" }
  else
    { success := true
      summary := "\n[green]All setup steps completed successfully![/green]" }

/-- The eight concrete `SetupStep` subclasses of `wr_cli/setup/steps.py`. -/
inductive StepKind where
  | checkNodeJS
  | checkPython
  | installUv
  | installGhstack
  | setupGhstack
  | lockPythonVersion
  | installRequirements
  | installLocalPackages
deriving DecidableEq

/-- Embedding of `SetupRunner._get_default_steps`. -/
def getDefaultSteps : List StepKind :=
  [.checkNodeJS, .checkPython, .installUv, .lockPythonVersion]

/-- Embedding of `SetupRunner._get_wr_cli_steps`. -/
def getWrCliSteps : List StepKind :=
  [.checkNodeJS, .checkPython, .installUv, .installGhstack, .setupGhstack,
    .lockPythonVersion]

/-- Embedding of `SetupRunner._get_omnibus_steps`. -/
def getOmnibusSteps : List StepKind :=
  [.checkNodeJS, .checkPython, .installUv, .lockPythonVersion,
    .installRequirements, .installLocalPackages]

/-- The step-list selection performed in `SetupRunner.__init__` from the
project name: "omnibus" and "wr-cli" have dedicated profiles, everything
else falls back to the default profile. -/
def selectSteps (project_name : String) : List StepKind :=
  if project_name = "omnibus" then getOmnibusSteps
  else if project_name = "wr-cli" then getWrCliSteps
  else getDefaultSteps

/-- Embedding of `LockPythonVersionStep._get_target_python_version`: the trimmed contents
of `.python-version` when that file exists (`pythonVersionFile = some
contents`), else the fallback "3.11". -/
def getTargetPythonVersion (pythonVersionFile : Option String) : String :=
  match pythonVersionFile with
  | some contents => pyStrip contents
  | none => "3.11"

/-- Accumulator loop for `pySplitWhitespace`: `acc` holds the characters of
the current word, reversed. -/
def pyWordsAux : List Char → List Char → List String
  | [], acc => if acc.isEmpty then [] else [String.mk acc.reverse]
  | c :: cs, acc =>
    if c.isWhitespace then
      if acc.isEmpty then pyWordsAux cs []
      else String.mk acc.reverse :: pyWordsAux cs []
    else pyWordsAux cs (c :: acc)

/-- Python `s.split()` with no separator: split on whitespace runs,
dropping empty pieces. -/
def pySplitWhitespace (s : String) : List String :=
  pyWordsAux s.toList []

/-- Embedding of `LockPythonVersionStep._get_current_python_version`: given the captured
result of `uv python --version`, extract the second whitespace-separated
token of the trimmed output (e.g. "3.11.13" out of "Python 3.11.13"), or
the empty string when the command failed, printed nothing, or the token is
missing or empty. -/
def getCurrentPythonVersion (uvSuccess : Bool) (uvStdout : String) : String :=
  if uvSuccess && !uvStdout.isEmpty then
    let parts := pySplitWhitespace (pyStrip uvStdout)
    match parts with
    | _ :: p1 :: _ => if !p1.isEmpty then p1 else ""
    | _ => ""
  else ""

/-- The version comparison at the core of `LockPythonVersionStep.is_completed`:
false when no current version could be read; exact equality when the target
contains a "." (the branch commented as "target specifies exact version");
otherwise prefix match on `target ++ "."` (the branch commented as "target
specifies minor version"). -/
def lockVersionMatch (target_version current_version : String) : Bool :=
  if current_version.isEmpty then false
  else if strContains target_version "." then
    decide (current_version = target_version)
  else
    pyStartsWith current_version (target_version ++ ".")

/-- Embedding of `LockPythonVersionStep.is_completed`, composed from the target-version
read, the current-version probe and the version comparison. -/
def lockPythonVersionIsCompleted (pythonVersionFile : Option String)
    (uvSuccess : Bool) (uvStdout : String) : Bool :=
  lockVersionMatch (getTargetPythonVersion pythonVersionFile)
    (getCurrentPythonVersion uvSuccess uvStdout)

/-- Host state observed by `get_python_executable`: whether each command
name resolves on the search path, and the captured `(success, stdout)` of
running `<cmd> --version`. -/
structure PyHost where
  cmdExists : String → Bool
  versionResult : String → Bool × String

/-- The fixed candidate list tried by `get_python_executable`. -/
def pythonCandidates : List String := ["python3.11", "python3", "python"]

/-- Embedding of `get_python_executable` from `wr_cli/setup/utils.py`: for each candidate
in priority order, if the command exists run `<cmd> --version` and return
the first candidate whose run succeeded with "Python 3.1" occurring in the
output; `none` when no candidate qualifies. -/
def get_python_executable (h : PyHost) : Option String :=
  pythonCandidates.findSome? fun cmd =>
    if h.cmdExists cmd then
      let r := h.versionResult cmd
      if r.1 && strContains r.2 "Python 3.1" then some cmd else none
    else none

/-- Embedding of `CheckPythonStep.is_completed`: true iff `get_python_executable`
resolves some candidate. -/
def checkPythonIsCompleted (h : PyHost) : Bool :=
  (get_python_executable h).isSome

/-- Host state observed by `InstallLocalPackagesStep.execute`: whether the
`uv` command exists, and per package name whether the directory exists,
whether it holds a `pyproject.toml`, and whether
`uv add --editable ./<pkg>` succeeds. -/
structure PkgHost where
  uvExists : Bool
  dirExists : String → Bool
  hasPyproject : String → Bool
  addSucceeds : String → Bool

/-- The `success_count` accumulated by the loop of
`InstallLocalPackagesStep.execute`: a package whose directory is missing or
whose directory lacks a `pyproject.toml` is skipped with `continue`; an
existing package with a manifest contributes 1 when `uv add --editable`
succeeds and 0 when it fails. -/
def localPackagesSuccessCount (h : PkgHost) : List String → Nat
  | [] => 0
  | pkg :: rest =>
    if !h.dirExists pkg then localPackagesSuccessCount h rest
    else if !h.hasPyproject pkg then localPackagesSuccessCount h rest
    else if h.addSucceeds pkg then 1 + localPackagesSuccessCount h rest
    else localPackagesSuccessCount h rest

/-- The default package list of `InstallLocalPackagesStep.__init__`. -/
def defaultLocalPackages : List String := ["omnibus", "parsley"]

/-- Embedding of `InstallLocalPackagesStep.execute`: fail immediately when `uv` is
missing; otherwise run the install loop and succeed iff at least one
package was added or every listed package directory is absent. -/
def installLocalPackagesExecute (h : PkgHost) (packages : List String) : Bool :=
  if !h.uvExists then false
  else
    let success_count := localPackagesSuccessCount h packages
    decide (success_count > 0) || packages.all fun pkg => !h.dirExists pkg

/-- A host on which the only resolvable Python command is `python3` and its
`--version` output reports Python 3.10.0. -/
def py310Host : PyHost :=
  { cmdExists := fun c => decide (c = "python3")
    versionResult := fun _ => (true, "Python 3.10.0") }

/-- A host with `uv` missing and no package directory present. -/
def noUvHost : PkgHost :=
  { uvExists := false
    dirExists := fun _ => false
    hasPyproject := fun _ => false
    addSucceeds := fun _ => false }

/-- A host with `uv` installed where only the `omnibus` package directory
exists, carries a manifest, and installs successfully; `parsley` is
absent. -/
def pkgDemoHost : PkgHost :=
  { uvExists := true
    dirExists := fun p => decide (p = "omnibus")
    hasPyproject := fun p => decide (p = "omnibus")
    addSucceeds := fun p => decide (p = "omnibus") }

/-- A step that reports itself completed and whose `execute` body would
fail if it ever ran. -/
def demoCompletedStep : Step :=
  { name := "Check Node.js"
    description := "Verify Node.js is installed"
    completed := true
    execOutcome := .ret false
    verbose := false }

/-- A verbose step whose `execute` body raises. -/
def demoRaisingStep : Step :=
  { name := "Install uv"
    description := "Install uv package manager"
    completed := false
    execOutcome := .raised "boom" "Traceback: boom"
    verbose := true }

/- ### Helper lemmas -/

/-- On an actual string, the guarded strip of the `CalledProcessError`
handler agrees with plain trimming (the guard only matters for `None`). -/
theorem pyTruthyStrip_some (s : String) : pyTruthyStrip (some s) = pyStrip s := by
  by_cases h : s = ""
  · subst h; rfl
  · simp [pyTruthyStrip, String.isEmpty_iff, h]

/-- The `run_setup` loop applies `Step.run` to every step in list order. -/
theorem loop_eq_map (force : Bool) (steps : List Step) :
    Runner.loop force steps = steps.map fun s => (s.name, s.run force) := by
  induction steps with
  | nil => rfl
  | cons s rest ih => simp [Runner.loop, ih]

/-- The failed-step names collected from the loop results are exactly the
names of the steps whose `run` returned false, in original order. -/
theorem loop_failed_names (force : Bool) (steps : List Step) :
    ((Runner.loop force steps).filter fun p => !p.2.success).map Prod.fst =
      (steps.filter fun s => !(s.run force).success).map Step.name := by
  induction steps with
  | nil => rfl
  | cons s rest ih =>
    cases h : (s.run force).success <;>
      simp [Runner.loop, List.filter_cons, h, ih]

/-- The loop's success count is positive iff some listed package has an
existing directory with a manifest and a successful editable install. -/
theorem successCount_pos_iff (h : PkgHost) (packages : List String) :
    0 < localPackagesSuccessCount h packages ↔
      ∃ pkg ∈ packages, h.dirExists pkg = true ∧ h.hasPyproject pkg = true ∧
        h.addSucceeds pkg = true := by
  induction packages with
  | nil => simp [localPackagesSuccessCount]
  | cons pkg rest ih =>
    cases hd : h.dirExists pkg
    · simp [localPackagesSuccessCount, hd, ih]
    · cases hm : h.hasPyproject pkg
      · simp [localPackagesSuccessCount, hd, hm, ih]
      · cases ha : h.addSucceeds pkg
        · simp [localPackagesSuccessCount, hd, hm, ha, ih]
        · simp [localPackagesSuccessCount, hd, hm, ha]

/-- Characterization of `run_setup` as a function of which steps failed: success with the
all-succeeded line when no step's `run` returned false, else failure with
the summary naming the failed steps in order, joined by `", "`. -/
theorem run_setup_eq (r : Runner) :
    r.run_setup =
      (if (r.steps.filter fun s => !(s.run r.force).success) = [] then
        { success := true
          summary := "\n[green]All setup steps completed successfully![/green]" }
      else
        { success := false
          summary := "\n[red]Failed steps: " ++
            String.intercalate ", "
              ((r.steps.filter fun s => !(s.run r.force).success).map
                Step.name) ++ "[/red]" }) := by
  by_cases he : (r.steps.filter fun s => !(s.run r.force).success) = [] <;>
    simp [Runner.run_setup, loop_failed_names, he, List.isEmpty_iff]

/- ### Claim theorems -/

/-- Claim C1: `run_setup` invokes each step's `run` exactly once, in list
order, with no short-circuiting on failure; it returns false iff at least
one step's `run` returned false; and the summary line lists exactly the
failed steps' names, in original order, joined by `", "` (or is the
all-succeeded line when none failed). -/
theorem C1_run_setup_aggregates (r : Runner) :
    Runner.loop r.force r.steps =
      (r.steps.map fun s => (s.name, s.run r.force)) ∧
    (r.run_setup.success = false ↔
      ∃ s ∈ r.steps, (s.run r.force).success = false) ∧
    r.run_setup.summary =
      (if (r.steps.filter fun s => !(s.run r.force).success) = [] then
        "\n[green]All setup steps completed successfully![/green]"
      else
        "\n[red]Failed steps: " ++
          String.intercalate ", "
            ((r.steps.filter fun s => !(s.run r.force).success).map
              Step.name) ++ "[/red]") := by
  refine ⟨loop_eq_map r.force r.steps, ?_, ?_⟩
  · rw [run_setup_eq]
    by_cases he : (r.steps.filter fun s => !(s.run r.force).success) = []
    · rw [if_pos he]
      have hall := List.filter_eq_nil_iff.mp he
      constructor
      · intro habs
        simp at habs
      · rintro ⟨s, hs, hfail⟩
        have hcontra := hall s hs
        simp [hfail] at hcontra
    · rw [if_neg he]
      have hex : ∃ s ∈ r.steps, (s.run r.force).success = false := by
        rcases List.exists_mem_of_ne_nil _ he with ⟨s, hs⟩
        have hmem := List.mem_filter.mp hs
        exact ⟨s, hmem.1, by simpa using hmem.2⟩
      simpa using hex
  · rw [run_setup_eq]
    by_cases he : (r.steps.filter fun s => !(s.run r.force).success) = [] <;>
      simp [he]

/-- Claim C2: with `force = false`, `run` never invokes `execute` when the
completion probe holds and returns success (the skip transition); with
`force = true`, `run` always invokes `execute` once regardless of the
completion state. -/
theorem C2_skip_and_force (s : Step) :
    (s.completed = true →
      (s.run false).execCalls = 0 ∧ (s.run false).success = true) ∧
    (s.run true).execCalls = 1 := by
  constructor
  · intro h
    simp [Step.run, h]
  · cases hx : s.execOutcome with
    | ret b => cases b <;> simp [Step.run, hx]
    | raised m t => simp [Step.run, hx]

/-- Witness for C2 at a concrete completed step. -/
theorem C2_skip_and_force_witness :
    demoCompletedStep.completed = true ∧
    (demoCompletedStep.run false).execCalls = 0 ∧
    (demoCompletedStep.run false).success = true ∧
    (demoCompletedStep.run true).execCalls = 1 := by
  have h := C2_skip_and_force demoCompletedStep
  exact ⟨rfl, (h.1 rfl).1, (h.1 rfl).2, h.2⟩

/-- Claim C3: when an invoked `execute` body raises, `run` absorbs the
exception (it is total and returns a boolean), returns false, prints a
failure line containing the error message, and, when verbose, additionally
prints the failure trace. -/
theorem C3_run_contains_exceptions (s : Step) (force : Bool)
    (msg trace : String) (hexec : s.execOutcome = .raised msg trace)
    (hreach : force = true ∨ s.completed = false) :
    (s.run force).success = false ∧
    ("[red]✗ " ++ s.name ++ "[/red] failed: " ++ msg) ∈ (s.run force).output ∧
    (s.verbose = true →
      ("[red]" ++ trace ++ "[/red]") ∈ (s.run force).output) := by
  have hcond : (!force && s.completed) = false := by
    rcases hreach with h | h <;> simp [h]
  refine ⟨?_, ?_, ?_⟩
  · simp [Step.run, hcond, hexec]
  · simp [Step.run, hcond, hexec]
  · intro hv
    simp [Step.run, hcond, hexec, hv]

/-- Witness for C3 at a concrete verbose raising step, forced. -/
theorem C3_run_contains_exceptions_witness :
    (demoRaisingStep.run true).success = false ∧
    ("[red]✗ " ++ demoRaisingStep.name ++ "[/red] failed: " ++ "boom") ∈
      (demoRaisingStep.run true).output ∧
    ("[red]" ++ "Traceback: boom" ++ "[/red]") ∈
      (demoRaisingStep.run true).output := by
  have h := C3_run_contains_exceptions demoRaisingStep true "boom"
    "Traceback: boom" rfl (Or.inl rfl)
  exact ⟨h.1, h.2.1, h.2.2 rfl⟩

/-- Claim C6 evaluation: a dotted target such as "3.11.13" is matched
exactly, but the minor-only target "3.11" also contains a dot and therefore
also takes the exact-match branch, so current "3.11.7" is judged
incomplete — contradicting the intended minor-prefix match stated in the
code's own comments; the full `is_completed` at target file "3.11" and
`uv python --version` output "Python 3.11.7" is likewise false. -/
theorem C6_lock_version_eval :
    lockVersionMatch "3.11.13" "3.11.13" = true ∧
    lockVersionMatch "3.11.13" "3.11.14" = false ∧
    lockVersionMatch "3.11" "3.11.7" = false ∧
    lockVersionMatch "3.11" "3.12.0" = false ∧
    lockPythonVersionIsCompleted (some "3.11") true "Python 3.11.7" =
      false := by
  refine ⟨?_, ?_, ?_, ?_, ?_⟩ <;> decide

/-- Claim C7: profile selection is a total function of the project name:
"omnibus" and "wr-cli" yield their six steps in the documented order, and
any other name yields the four default steps in order. -/
theorem C7_profile_selection (name : String)
    (h1 : name ≠ "omnibus") (h2 : name ≠ "wr-cli") :
    selectSteps "omnibus" =
      [.checkNodeJS, .checkPython, .installUv, .lockPythonVersion,
        .installRequirements, .installLocalPackages] ∧
    selectSteps "wr-cli" =
      [.checkNodeJS, .checkPython, .installUv, .installGhstack,
        .setupGhstack, .lockPythonVersion] ∧
    selectSteps name =
      [.checkNodeJS, .checkPython, .installUv, .lockPythonVersion] := by
  refine ⟨rfl, rfl, ?_⟩
  simp [selectSteps, h1, h2, getDefaultSteps]

/-- Witness for C7 at a concrete unrecognized project name. -/
theorem C7_profile_selection_witness :
    ("some-project" : String) ≠ "omnibus" ∧
    selectSteps "some-project" =
      [.checkNodeJS, .checkPython, .installUv, .lockPythonVersion] := by
  have h := C7_profile_selection "some-project" (by decide) (by decide)
  exact ⟨by decide, h.2.2⟩

/-- Claim C8 counterexample: with `uv` absent and both default package
directories absent, the loop adds nothing and every listed directory is
missing — the claimed success rule demands true — yet `execute` returns
false at the `uv` precondition. -/
theorem C8_counterexample_uv_missing :
    installLocalPackagesExecute noUvHost defaultLocalPackages = false ∧
    (defaultLocalPackages.all fun pkg => !noUvHost.dirExists pkg) = true ∧
    localPackagesSuccessCount noUvHost defaultLocalPackages = 0 := by
  exact ⟨rfl, rfl, rfl⟩

/-- Claim C8 (amended): provided `uv` is installed, `execute` returns true
iff at least one listed package had an existing directory with a manifest
and a successful editable add, or every listed package directory is
absent; a directory without a manifest is skipped by the loop and
contributes nothing to the success count. -/
theorem C8_execute_success_rule (h : PkgHost) (packages : List String)
    (huv : h.uvExists = true) :
    (installLocalPackagesExecute h packages = true ↔
      ((∃ pkg ∈ packages, h.dirExists pkg = true ∧ h.hasPyproject pkg = true ∧
          h.addSucceeds pkg = true) ∨
        ∀ pkg ∈ packages, h.dirExists pkg = false)) ∧
    (∀ pkg rest, h.dirExists pkg = true → h.hasPyproject pkg = false →
      localPackagesSuccessCount h (pkg :: rest) =
        localPackagesSuccessCount h rest) := by
  constructor
  · rw [installLocalPackagesExecute]
    rw [huv]
    simp only [Bool.not_true, Bool.false_eq_true, if_false, Bool.or_eq_true,
      decide_eq_true_eq, List.all_eq_true, Bool.not_eq_true', gt_iff_lt]
    rw [successCount_pos_iff]
  · intro pkg rest hd hm
    simp [localPackagesSuccessCount, hd, hm]

/-- Witness for C8 at a host where `omnibus` installs and `parsley` is
absent. -/
theorem C8_execute_success_rule_witness :
    pkgDemoHost.uvExists = true ∧
    installLocalPackagesExecute pkgDemoHost defaultLocalPackages = true := by
  have h := C8_execute_success_rule pkgDemoHost defaultLocalPackages rfl
  exact ⟨rfl,
    h.1.mpr (Or.inl ⟨"omnibus", by decide, by decide, by decide, by decide⟩)⟩

/-- Claim C9 evaluation: on a host whose only resolvable candidate is
`python3` reporting "Python 3.10.0", the resolver accepts it (the test is
occurrence of the text "Python 3.1", which 3.10 satisfies) and
`CheckPythonStep.is_completed` is true although no interpreter of version
at least 3.11 exists — contradicting the comment "Verify it's actually
Python 3.11+" in the code. -/
theorem C9_check_python_eval :
    get_python_executable py310Host = some "python3" ∧
    checkPythonIsCompleted py310Host = true ∧
    strContains (py310Host.versionResult "python3").2 "Python 3.1" = true := by
  refine ⟨?_, ?_, ?_⟩ <;> decide

/-- Claim C4: captured execution of a command whose executable cannot be
located returns exactly `(false, "", "Command not found: <argv[0]>")`, for
any capture/check flags; a process that ran and exited non-zero under
`check` instead returns failure carrying the process's own trimmed
stdout/stderr text. -/
theorem C4_command_not_found (c : String) (args : List String)
    (capture_output check : Bool) (returncode : Int) (out err : String)
    (hcode : returncode ≠ 0) :
    run_command (c :: args) capture_output check false .notFound =
      .ok (false, "", "Command not found: " ++ c) ∧
    run_command (c :: args) true true false (.ran returncode out err) =
      .ok (false, pyStrip out, pyStrip err) := by
  refine ⟨rfl, ?_⟩
  simp [run_command, hcode, pyTruthyStrip_some]

/-- Witness for C4 at a concrete command and a non-zero exit. -/
theorem C4_command_not_found_witness :
    run_command ["git", "--version"] true true false .notFound =
      .ok (false, "", "Command not found: git") ∧
    run_command ["git", "--version"] true true false
      (.ran 1 " out " "err\n") = .ok (false, "out", "err") := by
  have h := C4_command_not_found "git" ["--version"] true true 1 " out " "err\n"
    (by decide)
  exact ⟨h.1, by rw [h.2]; rfl⟩

/-- Claim C5 counterexample: interactive execution does not return an empty
stderr on every path — when the launch raises, stderr carries the
diagnostic `Error running command: <cause>`. -/
theorem C5_counterexample_stderr :
    (run_command_interactive ["uv", "sync"] (.raised "boom")).2.2 =
      "Error running command: boom" ∧
    (run_command_interactive ["uv", "sync"] (.raised "boom")).2.2 ≠ "" := by
  exact ⟨rfl, by decide⟩

/-- Claim C5 (amended): when the shell launch completes, interactive
execution returns empty stdout/stderr and succeeds iff the exit status is
zero; when the launch raises, it returns false with empty stdout and a
stderr explaining the cause (never propagating the exception). -/
theorem C5_interactive_returns (command : List String) :
    (∀ returncode : Int,
      run_command_interactive command (.ran returncode) =
        (decide (returncode = 0), "", "")) ∧
    (∀ msg : String,
      run_command_interactive command (.raised msg) =
        (false, "", "Error running command: " ++ msg)) :=
  ⟨fun _ => rfl, fun _ => rfl⟩

/-- Claim C10: in captured mode with `check` false, `run_command` reports
success regardless of the exit status (the process launched, so the result
is `(true, stdout, stderr)` trimmed); with `check` true, success is
exactly "exit status zero". -/
theorem C10_captured_check_false (command : List String) (returncode : Int)
    (out err : String) :
    run_command command true false false (.ran returncode out err) =
      .ok (true, pyStrip out, pyStrip err) ∧
    run_command command true true false (.ran returncode out err) =
      .ok (decide (returncode = 0), pyStrip out, pyStrip err) := by
  constructor
  · rfl
  · by_cases hc : returncode = 0
    · subst hc; rfl
    · simp [run_command, hc, pyTruthyStrip_some]

end WrCli
